import Mathlib

/-!
Verification development for the YouTube video Q&A chatbot.

The repository is a small retrieval-augmented question-answering pipeline:
`youtube_utils.py` (URL/ID resolver and transcript fetcher), `chatbot.py`
(the `YouTubeChatbot` session facade with `process_video` / `ask`), and
`config.py` (resolved configuration constants).  External collaborators
(the transcript service, the embedding service, the FAISS retriever and
the chat model) are modelled as oracle functions collected in an `Env`
record; Python exceptions are modelled by an explicit error type and
`Except`-valued functions; Python strings are modelled as `String` or,
where character-level reasoning is needed, `List Char`.
-/

namespace YTC

/-- Character class of the regexes in `youtube_utils.py`: `[a-zA-Z0-9_-]`. -/
def idChar (c : Char) : Bool := c.isAlpha || c.isDigit || c == '_' || c == '-'

/-- Prefix test on character lists, recursing on the needle first so that an
empty needle is a prefix of anything definitionally. -/
def pfx : List Char → List Char → Bool
  | [], _ => true
  | a :: as, t =>
    match t with
    | [] => false
    | b :: bs => a == b && pfx as bs

/-- Python substring containment (`needle in hay`) on character lists. -/
def containsSub (needle : List Char) : List Char → Bool
  | [] => needle.isEmpty
  | c :: rest => pfx needle (c :: rest) || containsSub needle rest

/-- Worker for Python `str.split(sep)` with a non-empty separator: scans left to
right; on a match emits a new segment and skips the remaining `sep.length - 1`
separator characters (tracked by the `skip` counter), matching Python's
non-overlapping split. -/
def splitGo (sep : List Char) : List Char → Nat → List (List Char)
  | [], _ => [[]]
  | _ :: rest, Nat.succ skip => splitGo sep rest skip
  | c :: rest, 0 =>
    match pfx sep (c :: rest), sep with
    | true, _ :: sepTail => [] :: splitGo sep rest sepTail.length
    | _, _ => (splitGo sep rest 0).modifyHead (fun h => c :: h)

/-- Python `str.split(sep)` on character lists. -/
def splitOnList (sep : List Char) (s : List Char) : List (List Char) :=
  splitGo sep s 0

/-- The fixed character lists appearing in `youtube_utils.py`. -/
def lHTTPS : List Char := "https://".toList
def lHTTP : List Char := "http://".toList
def lWWW : List Char := "www.".toList
def lWATCH : List Char := "youtube.com/watch?v=".toList
def lYTBES : List Char := "youtu.be/".toList
def lYTBE : List Char := "youtu.be".toList
def lYTCOM : List Char := "youtube.com".toList
def lVEQ : List Char := ['v', '=']

/-- The `([a-zA-Z0-9_-]{11})` tail of the URL regex: at least 11 characters
remain and the next 11 are all in the class (the regex is unanchored at the
end, so anything may follow). -/
def idChunk (s : List Char) : Bool :=
  decide (11 ≤ s.length) && (s.take 11).all idChar

/-- The `(https?://)?` optional group of the URL regex.  The group's
alternatives start with letters distinct from every later literal of the
regex, so the backtracking regex is equivalent to this greedy strip. -/
def afterScheme (url : List Char) : List Char :=
  cond (pfx lHTTPS url) (url.drop 8)
    (cond (pfx lHTTP url) (url.drop 7) url)

/-- The `(www\.)?` optional group of the URL regex. -/
def afterWww (s : List Char) : List Char :=
  cond (pfx lWWW s) (s.drop 4) s

/-- Python `re.match` of the regex
`(https?://)?(www\.)?(youtube\.com/watch\?v=|youtu\.be/)([a-zA-Z0-9_-]{11})`
from `validate_youtube_url`. -/
def youtubeRegexMatch (url : List Char) : Bool :=
  (pfx lWATCH (afterWww (afterScheme url)) && idChunk ((afterWww (afterScheme url)).drop 20)) ||
    (pfx lYTBES (afterWww (afterScheme url)) && idChunk ((afterWww (afterScheme url)).drop 9))

/-- Python's `$` in `re.match(r'^[a-zA-Z0-9_-]{11}$', url)` also matches just
before a single newline at the end of the string, so a 12-character string
whose first 11 characters are in the class and whose last character is a
newline also matches the bare-ID regex. -/
def bareIdNewlineQuirk (url : List Char) : Bool :=
  url.length == 12 && (url.take 11).all idChar && url.getLastD ' ' == '\n'

/-- Python `re.match` of the regex `^[a-zA-Z0-9_-]{11}$` from
`validate_youtube_url`, including the end-anchor newline tolerance. -/
def videoIdRegexMatch (url : List Char) : Bool :=
  (url.length == 11 && url.all idChar) || bareIdNewlineQuirk url

/-- Model of `validate_youtube_url` (youtube_utils.py, lines 14-30). -/
def validate_youtube_url (url : List Char) : Bool :=
  youtubeRegexMatch url || videoIdRegexMatch url

/-- Python exceptions crossing the module boundaries of the program, each
carrying its `str(e)` message. -/
inductive PyErr where
  | valueError (msg : String)
  | authenticationError (msg : String)
  | rateLimitError (msg : String)
  | apiConnectionError (msg : String)
  | transcriptsDisabled (msg : String)
  | noTranscriptFound (msg : String)
  | otherError (msg : String)
deriving DecidableEq

/-- Python `str(e)` for the modelled exceptions. -/
def PyErr.message : PyErr → String
  | .valueError m => m
  | .authenticationError m => m
  | .rateLimitError m => m
  | .apiConnectionError m => m
  | .transcriptsDisabled m => m
  | .noTranscriptFound m => m
  | .otherError m => m

/-- Model of `url.split("?")[0]` (Python indexing; the split result is never
empty). -/
def headSegment (sep : List Char) (s : List Char) : List Char :=
  (splitOnList sep s).getD 0 []

/-- Model of the tail of `video_id = url.split("v=")[1]` followed by
`ampersand_pos = video_id.find("&")` and the conditional slice
`video_id[:ampersand_pos]`. -/
def cutAtAmp (s : List Char) : List Char :=
  match s.findIdx? (fun c => c == '&') with
  | some p => s.take p
  | none => s

/-- Model of `extract_video_id` (youtube_utils.py, lines 33-66), written with
`cond` on the boolean guards in source order: validation, the bare-ID early
return, the `youtu.be` branch, the `v=` branch, and the fall-through. -/
def extract_video_id (url : List Char) : Except PyErr (List Char) :=
  cond (validate_youtube_url url)
    (cond (!(url.contains '/') && !(containsSub lYTCOM url) && !(containsSub lYTBE url))
      (.ok url)
      (cond (containsSub lYTBE url)
        (.ok (headSegment ['?'] ((splitOnList ['/'] url).getLastD [])))
        (cond (containsSub lVEQ url)
          (.ok (cutAtAmp ((splitOnList lVEQ url).getD 1 [])))
          (.ok url))))
    (.error (.valueError "Invalid YouTube URL or video ID format"))

/-- Whitespace for Python `str.strip()` (ASCII subset, which covers every
string the program builds from caption segments and separators). -/
def isPySpace (c : Char) : Bool :=
  c == ' ' || c == '\t' || c == '\n' || c == '\r' || c == '\x0b' || c == '\x0c'

/-- Python `not transcript.strip()`: the string is empty or all whitespace. -/
def stripIsEmpty (s : String) : Bool := s.toList.all isPySpace

/-- Configuration constants of `config.py` at their documented defaults
(loading of environment overrides is out of scope; the core sees only the
resolved values). -/
def CHUNK_SIZE : Nat := 1000
def CHUNK_OVERLAP : Nat := 200
def RETRIEVAL_K : Nat := 4
def DEFAULT_TRANSCRIPT_LANGUAGE : String := "en"

/-- The in-memory vector store built by `FAISS.from_documents`: the indexed
chunk texts (embedding vectors live behind the oracle boundary). -/
structure VectorStore where
  docs : List String
deriving DecidableEq

/-- The retriever produced by `vector_store.as_retriever(...)`. -/
structure Retriever where
  store : VectorStore
  search_type : String
  k : Nat
deriving DecidableEq

/-- Model of `self.vector_store.as_retriever(search_type="similarity",
search_kwargs={"k": config.RETRIEVAL_K})` (chatbot.py, lines 126-129). -/
def as_retriever (vs : VectorStore) : Retriever :=
  { store := vs, search_type := "similarity", k := RETRIEVAL_K }

/-- The composed runnable chain built by `_create_chain`; it binds the
retriever (the prompt template and model are fixed and supplied by the
environment at invocation). -/
structure Chain where
  retriever : Retriever
deriving DecidableEq

/-- The mutable fields of a `YouTubeChatbot` session set by `__init__`
(chatbot.py, lines 77-79) and reassigned by `process_video`. -/
structure Session where
  vector_store : Option VectorStore
  retriever : Option Retriever
  chain : Option Chain
deriving DecidableEq

/-- The session state right after `__init__`: no video processed. -/
def initSession : Session := { vector_store := none, retriever := none, chain := none }

/-- External collaborators, modelled as oracles: the transcript service call
`YouTubeTranscriptApi.get_transcript`, the text splitter call
`text_splitter.create_documents` (external library code), the embedding +
index build `FAISS.from_documents`, similarity retrieval, and the chat model
(prompt string in, completion text out). -/
structure Env where
  transcript_api : List Char → List String → Except PyErr (List String)
  create_documents : String → List String
  from_documents : List String → Except PyErr VectorStore
  retrieve : Retriever → String → Except PyErr (List String)
  llm : String → Except PyErr String

/-- Observable external calls made during one `process_video` invocation. -/
inductive ExtCall where
  | fetch (video_id : List Char)
  | embed (chunks : List String)
deriving DecidableEq

/-- The `except` clauses of `get_transcript` (youtube_utils.py, lines
97-102): `TranscriptsDisabled` and `NoTranscriptFound` are re-raised with
fresh messages; every other exception (including a `ValueError` raised
inside the same `try` block) is wrapped into
`ValueError("Error retrieving transcript: ...")`. -/
def gtHandler (video_id : List Char) (languages : List String) (e : PyErr) : PyErr :=
  match e with
  | .transcriptsDisabled _ =>
      .transcriptsDisabled ("No captions available for video ID: " ++ String.mk video_id)
  | .noTranscriptFound _ =>
      .noTranscriptFound ("No transcript found in languages: " ++ String.intercalate ", " languages)
  | e => .valueError ("Error retrieving transcript: " ++ e.message)

/-- Model of `get_transcript` (youtube_utils.py, lines 69-102).  Note that
the `raise ValueError("Empty transcript retrieved")` sits inside the same
`try` block as the service call, so it is caught by the function's own
`except Exception` clause and re-wrapped by `gtHandler`. -/
def get_transcript (env : Env) (video_id : List Char)
    (languages : List String := ["en"]) : Except PyErr String :=
  match env.transcript_api video_id languages with
  | .error e => .error (gtHandler video_id languages e)
  | .ok segments =>
    let transcript := String.intercalate " " segments
    if stripIsEmpty transcript then
      .error (gtHandler video_id languages (.valueError "Empty transcript retrieved"))
    else
      .ok transcript

/-- Slot values fed into the prompt template by the `RunnableParallel` stage
of the chain (chatbot.py, lines 151-154). -/
structure PromptSlots where
  context : String
  question : String
deriving DecidableEq

/-- Model of `format_docs` (chatbot.py, lines 147-149): join the retrieved
chunk texts with a blank-line separator. -/
def format_docs (docs : List String) : String := String.intercalate "\n\n" docs

/-- Model of `PromptTemplate.format` on the fixed template of `__init__`
(chatbot.py, lines 65-75), with the two slots substituted. -/
def render_prompt (slots : PromptSlots) : String :=
  "\n                You are a helpful assistant.\n                Answer ONLY from the provided transcript context.\n                If the context is insufficient, just say you don\x27t know.\n\n                "
    ++ slots.context
    ++ "\n                Question: "
    ++ slots.question
    ++ "\n                "

/-- Model of `self.chain.invoke(question)` for the chain wired by
`_create_chain` (chatbot.py, lines 143-158): the parallel stage retrieves and
formats the context while passing the question through unchanged, the prompt
is rendered, the model is called, and `StrOutputParser` returns its text. -/
def chain_invoke (env : Env) (ch : Chain) (question : String) : Except PyErr String :=
  match env.retrieve ch.retriever question with
  | .error e => .error e
  | .ok docs =>
      env.llm (render_prompt { context := format_docs docs, question := question })

/-- The `except` clauses of `process_video` (chatbot.py, lines 136-141):
`ValueError`, `AuthenticationError` and `RateLimitError` are re-raised
unchanged; every other exception is wrapped into
`ValueError("Error processing video: ...")`. -/
def pvHandler (e : PyErr) : PyErr :=
  match e with
  | .valueError _ => e
  | .authenticationError _ => e
  | .rateLimitError _ => e
  | e => .valueError ("Error processing video: " ++ e.message)

/-- Model of `process_video` (chatbot.py, lines 91-141).  Returns the
Python result (`True` or a raised exception), the session state after the
call (field assignments happen exactly where the source assigns them), and
the list of external fetch/embed calls performed.  `as_retriever` and
`_create_chain` are pure local construction in the source (no external
calls), hence total here. -/
def process_video (env : Env) (s : Session) (url : List Char) :
    Except PyErr Bool × Session × List ExtCall :=
  if validate_youtube_url url then
    match extract_video_id url with
    | .error e => (.error (pvHandler e), s, [])
    | .ok video_id =>
      match get_transcript env video_id with
      | .error e => (.error (pvHandler e), s, [.fetch video_id])
      | .ok transcript =>
        if transcript.isEmpty then
          (.error (pvHandler (.valueError "Could not retrieve transcript for this video")),
            s, [.fetch video_id])
        else if (env.create_documents transcript).isEmpty then
          (.error (pvHandler (.valueError "Failed to split transcript into chunks")),
            s, [.fetch video_id])
        else
          match env.from_documents (env.create_documents transcript) with
          | .error e =>
            (.error (pvHandler e), s,
              [.fetch video_id, .embed (env.create_documents transcript)])
          | .ok vs =>
            let s1 : Session := { s with vector_store := some vs }
            let retr := as_retriever vs
            let s2 : Session := { s1 with retriever := some retr }
            let s3 : Session := { s2 with chain := some { retriever := retr } }
            (.ok true, s3, [.fetch video_id, .embed (env.create_documents transcript)])
  else
    (.error (pvHandler (.valueError "Invalid YouTube URL or video ID format")), s, [])

/-- The `except` clauses of `ask` (chatbot.py, lines 178-184): every failure
of the chain is converted into a `ValueError` whose message prefix is the
only remaining distinction. -/
def askHandler (e : PyErr) : PyErr :=
  match e with
  | .authenticationError m => .valueError ("Authentication error: " ++ m)
  | .rateLimitError m => .valueError ("Rate limit exceeded: " ++ m)
  | e => .valueError ("Error generating answer: " ++ e.message)

/-- Model of `ask` (chatbot.py, lines 160-184). -/
def ask (env : Env) (s : Session) (question : String) : Except PyErr String :=
  match s.chain with
  | none => .error (.valueError "Please process a video first using process_video()")
  | some ch =>
    match chain_invoke env ch question with
    | .ok answer => .ok answer
    | .error e => .error (askHandler e)

/-- Errors that `process_video` re-raises or constructs itself: the tuple of
its first `except` clause plus the `ValueError`s it raises. -/
def surfacedByPV (e : PyErr) : Bool :=
  match e with
  | .valueError _ => true
  | .authenticationError _ => true
  | .rateLimitError _ => true
  | _ => false

/-- Recognizer for the generic `ValueError` kind. -/
def PyErr.isValueError : PyErr → Bool
  | .valueError _ => true
  | _ => false

/-- Modelled from the spec: the splitter behind
`text_splitter.create_documents` is `RecursiveCharacterTextSplitter` from an
external library whose code is not part of this repository, so the Chunker
is modelled from §4.3 of the spec: deterministic splitting that keeps every
chunk's length at most `chunkSize` and makes consecutive chunks share up to
`chunkOverlap` characters of context, with the hard character cut as the
splitting rule.  The `fuel` argument bounds the recursion by the input
length; `splitText` supplies adequate fuel. -/
def splitTextGo (chunkSize step : Nat) : List Char → Nat → List (List Char)
  | t, 0 => [t]
  | t, Nat.succ fuel =>
    if t.length ≤ chunkSize then [t]
    else t.take chunkSize :: splitTextGo chunkSize step (t.drop step) fuel

/-- Modelled from the spec: `split(text, chunk_size, chunk_overlap)` of §4.3.
Consecutive chunks start `chunk_size - chunk_overlap` characters apart, so
they share exactly the configured overlap. -/
def splitText (chunkSize chunkOverlap : Nat) (t : List Char) : List (List Char) :=
  splitTextGo chunkSize (max 1 (chunkSize - chunkOverlap)) t t.length

/-- Two consecutive chunks share a block of at most `chunkOverlap` characters:
the part of the first chunk past the step boundary has length at most
`chunkOverlap` and is literally how the second chunk begins. -/
def overlapRel (chunkSize chunkOverlap : Nat) (a b : List Char) : Prop :=
  (a.drop (chunkSize - chunkOverlap)).length ≤ chunkOverlap ∧
    ∃ t, b = a.drop (chunkSize - chunkOverlap) ++ t

/-- Spec-side definition, following the spec's words: a full YouTube watch
URL with an 11-character ID — an optional `http://` or `https://` scheme,
an optional `www.`, the `youtube.com/watch?v=` host and path, then the
11-character ID (all six scheme/www combinations, spelled out). -/
def specFullWatch (url : List Char) : Bool :=
  (pfx lWATCH url && idChunk (url.drop 20)) ||
  (pfx (lWWW ++ lWATCH) url && idChunk (url.drop 24)) ||
  (pfx (lHTTP ++ lWATCH) url && idChunk (url.drop 27)) ||
  (pfx (lHTTP ++ (lWWW ++ lWATCH)) url && idChunk (url.drop 31)) ||
  (pfx (lHTTPS ++ lWATCH) url && idChunk (url.drop 28)) ||
  (pfx (lHTTPS ++ (lWWW ++ lWATCH)) url && idChunk (url.drop 32))

/-- Spec-side definition, following the spec's words: a short
`youtu.be/<id>` URL, with the same optional scheme and `www.`. -/
def specShortUrl (url : List Char) : Bool :=
  (pfx lYTBES url && idChunk (url.drop 9)) ||
  (pfx (lWWW ++ lYTBES) url && idChunk (url.drop 13)) ||
  (pfx (lHTTP ++ lYTBES) url && idChunk (url.drop 16)) ||
  (pfx (lHTTP ++ (lWWW ++ lYTBES)) url && idChunk (url.drop 20)) ||
  (pfx (lHTTPS ++ lYTBES) url && idChunk (url.drop 17)) ||
  (pfx (lHTTPS ++ (lWWW ++ lYTBES)) url && idChunk (url.drop 21))

/-- Spec-side definition, following the spec's words: a bare 11-character
alphanumeric+`-_` ID. -/
def specBareId (url : List Char) : Bool :=
  url.length == 11 && url.all idChar

/-- Spec-side definition of the claimed validation pattern: a full watch
URL, a short URL, or a bare 11-character ID. -/
def specValidRef (url : List Char) : Bool :=
  specFullWatch url || specShortUrl url || specBareId url

/-- A video reference used by the concrete witnesses: a bare 11-character
ID (also the ID of the spec's end-to-end scenario). -/
def url0 : List Char := "abc12345678".toList

/-- Witness environment where every external call succeeds. -/
def envOK : Env :=
  { transcript_api := fun _ _ => .ok ["hello", "world"]
    create_documents := fun t => [t]
    from_documents := fun chunks => .ok { docs := chunks }
    retrieve := fun _ _ => .ok ["doc1", "doc2"]
    llm := fun _ => .ok "some answer" }

/-- Witness environment where the transcript service reports that the video
owner disabled captions. -/
def envCap : Env :=
  { envOK with transcript_api := fun _ _ => .error (.transcriptsDisabled "disabled") }

/-- Witness environment where the fetched caption segments join to a
whitespace-only string. -/
def envEmpty : Env :=
  { envOK with transcript_api := fun _ _ => .ok [" "] }

/-- A session in the Ready state, obtained by successfully processing the
witness video. -/
def sReady : Session := (process_video envOK initSession url0).2.1

/-- Witness environment where the transcript service fails with a generic
transport error. -/
def envBoom : Env :=
  { envOK with transcript_api := fun _ _ => .error (.otherError "boom") }

/-- A chain over the witness session's retriever. -/
def ch0 : Chain := { retriever := as_retriever { docs := ["hello world"] } }

/-! ## Helper lemmas -/

theorem pvHandler_kinds (e : PyErr) : surfacedByPV (pvHandler e) = true := by
  cases e <;> rfl

theorem askHandler_valueError (e : PyErr) : (askHandler e).isValueError = true := by
  cases e <;> rfl

theorem extract_ok_of_validate (url : List Char) (h : validate_youtube_url url = true) :
    ∃ v, extract_video_id url = .ok v := by
  unfold extract_video_id
  rw [h]
  cases (!(url.contains '/') && !(containsSub lYTCOM url) && !(containsSub lYTBE url)) <;>
    cases containsSub lYTBE url <;> cases containsSub lVEQ url <;> exact ⟨_, rfl⟩

/-- Every run of `process_video` either succeeds with `True` after setting
all three session fields, or fails with a handler-shaped error leaving the
session untouched. -/
theorem pv_cases (env : Env) (s : Session) (url : List Char) :
    (process_video env s url).1 = .ok true ∨
      ((∃ e, (process_video env s url).1 = .error (pvHandler e)) ∧
        (process_video env s url).2.1 = s) := by
  unfold process_video
  split_ifs with hval
  · split
    · exact Or.inr ⟨⟨_, rfl⟩, rfl⟩
    · split
      · exact Or.inr ⟨⟨_, rfl⟩, rfl⟩
      · split_ifs with h1 h2
        · exact Or.inr ⟨⟨_, rfl⟩, rfl⟩
        · exact Or.inr ⟨⟨_, rfl⟩, rfl⟩
        · split
          · exact Or.inr ⟨⟨_, rfl⟩, rfl⟩
          · exact Or.inl rfl
  · exact Or.inr ⟨⟨_, rfl⟩, rfl⟩

/-- Whenever validation passes, `process_video` calls the transcript service:
its external-call log starts with a fetch of the extracted video ID. -/
theorem pv_always_fetches (env : Env) (s : Session) (url : List Char)
    (h : validate_youtube_url url = true) :
    ∃ v rest, (process_video env s url).2.2 = ExtCall.fetch v :: rest := by
  obtain ⟨v, hv⟩ := extract_ok_of_validate url h
  unfold process_video
  rw [if_pos h]
  split
  · rename_i e heq
    rw [hv] at heq
    cases heq
  · rename_i vid heq
    rw [hv] at heq
    injection heq with hvv
    subst hvv
    split
    · exact ⟨_, [], rfl⟩
    · split_ifs with h1 h2
      · exact ⟨_, [], rfl⟩
      · exact ⟨_, [], rfl⟩
      · split
        · exact ⟨_, [.embed _], rfl⟩
        · exact ⟨_, [.embed _], rfl⟩

theorem ask_error_shape (env : Env) (s : Session) (q : String) (e : PyErr)
    (h : ask env s q = .error e) : e.isValueError = true := by
  unfold ask at h
  split at h
  · cases h
    rfl
  · split at h
    · cases h
    · cases h
      exact askHandler_valueError _

theorem pfxOf_append_self : ∀ (p r : List Char), pfx p (p ++ r) = true
  | [], _ => rfl
  | a :: p', r => by
    show ((a == a) && pfx p' (p' ++ r)) = true
    rw [beq_self_eq_true, pfxOf_append_self p' r]
    rfl

theorem pfxOf_eq_append : ∀ (p u : List Char), pfx p u = true → u = p ++ u.drop p.length
  | [], _, _ => rfl
  | _ :: _, [], h => by cases h
  | a :: p', b :: u', h => by
    have h' : ((a == b) && pfx p' u') = true := h
    rw [Bool.and_eq_true] at h'
    rcases h' with ⟨hab, hrest⟩
    have hab' : a = b := eq_of_beq hab
    subst hab'
    show a :: u' = a :: (p' ++ u'.drop p'.length)
    exact congrArg (a :: ·) (pfxOf_eq_append p' u' hrest)

theorem pfxOf_append_split :
    ∀ (a b s : List Char),
      pfx (a ++ b) s = (pfx a s && pfx b (s.drop a.length))
  | [], _, _ => rfl
  | _ :: _, _, [] => rfl
  | a :: a', b, c :: s' => by
    show ((a == c) && pfx (a' ++ b) s') =
      (((a == c) && pfx a' s') && pfx b (s'.drop a'.length))
    cases hac : (a == c)
    · rfl
    · show pfx (a' ++ b) s' = (pfx a' s' && pfx b (s'.drop a'.length))
      exact pfxOf_append_split a' b s'

theorem containsSub_subset (n : List Char) :
    ∀ s, containsSub n s = true → ∀ c ∈ n, c ∈ s
  | [], h, c, hc => by
    have h' : n.isEmpty = true := h
    rw [List.isEmpty_iff] at h'
    subst h'
    cases hc
  | d :: rest, h, c, hc => by
    have h' : (pfx n (d :: rest) || containsSub n rest) = true := h
    rw [Bool.or_eq_true] at h'
    rcases h' with hp | hrec
    · rw [pfxOf_eq_append n (d :: rest) hp]
      exact List.mem_append_left _ hc
    · exact List.mem_cons_of_mem d (containsSub_subset n rest hrec c hc)

theorem containsSub_append_self :
    ∀ (pre n ys : List Char), containsSub n (pre ++ (n ++ ys)) = true
  | [], n, ys => by
    cases n with
    | nil => cases ys <;> rfl
    | cons c n' =>
      show (pfx (c :: n') (c :: n' ++ ys) || _) = true
      rw [pfxOf_append_self (c :: n') ys]
      rfl
  | d :: pre', n, ys => by
    show (pfx n (d :: (pre' ++ (n ++ ys))) || containsSub n (pre' ++ (n ++ ys))) = true
    rw [containsSub_append_self pre' n ys, Bool.or_true]

/-- A substring whose characters include one outside the ID class cannot
occur in an all-ID-class string. -/
theorem containsSub_eq_false_of_badChar (n s : List Char) (c : Char) (hcn : c ∈ n)
    (hbad : idChar c = false) (hall : s.all idChar = true) : containsSub n s = false := by
  cases h : containsSub n s
  · rfl
  · exfalso
    have hcs : c ∈ s := containsSub_subset n s h c hcn
    have := List.all_eq_true.mp hall c hcs
    rw [hbad] at this
    cases this

theorem contains_eq_false_of_badChar (a : Char) (s : List Char)
    (hbad : idChar a = false) (hall : s.all idChar = true) : s.contains a = false := by
  cases h : s.contains a
  · rfl
  · exfalso
    have ha : a ∈ s := List.mem_of_elem_eq_true h
    have := List.all_eq_true.mp hall a ha
    rw [hbad] at this
    cases this

/-- Splitting on a separator whose first character is outside the ID class
leaves an all-ID-class string whole. -/
theorem splitGo_headBad (a : Char) (sep' : List Char) (ha : idChar a = false) :
    ∀ s, s.all idChar = true → splitGo (a :: sep') s 0 = [s]
  | [], _ => rfl
  | c :: cs, hall => by
    have hc : idChar c = true := List.all_eq_true.mp hall c (List.mem_cons_self c cs)
    have hac : (a == c) = false := by
      rw [beq_eq_false_iff_ne]
      intro he
      rw [he, hc] at ha
      cases ha
    have hpr : pfx (a :: sep') (c :: cs) = false := by
      show ((a == c) && pfx sep' cs) = false
      rw [hac]
      rfl
    have hcs : cs.all idChar = true := by
      rw [List.all_cons, Bool.and_eq_true] at hall
      exact hall.2
    unfold splitGo
    rw [hpr, splitGo_headBad a sep' ha cs hcs]
    rfl

/-- Splitting on a two-character-headed separator whose second character is
outside the ID class leaves an all-ID-class string whole. -/
theorem splitGo_sndBad (a b : Char) (sep' : List Char) (hb : idChar b = false) :
    ∀ s, s.all idChar = true → splitGo (a :: b :: sep') s 0 = [s]
  | [], _ => rfl
  | c :: cs, hall => by
    have hcs : cs.all idChar = true := by
      rw [List.all_cons, Bool.and_eq_true] at hall
      exact hall.2
    have hpr : pfx (a :: b :: sep') (c :: cs) = false := by
      show ((a == c) && pfx (b :: sep') cs) = false
      cases cs with
      | nil =>
        show ((a == c) && false) = false
        rw [Bool.and_false]
      | cons d ds =>
        have hd : idChar d = true := List.all_eq_true.mp hcs d (List.mem_cons_self d ds)
        have hbd : (b == d) = false := by
          rw [beq_eq_false_iff_ne]
          intro he
          rw [he, hd] at hb
          cases hb
        show ((a == c) && ((b == d) && pfx sep' ds)) = false
        rw [hbd]
        rw [Bool.false_and, Bool.and_false]
    unfold splitGo
    rw [hpr, splitGo_sndBad a b sep' hb cs hcs]
    rfl

theorem findIdx?_eq_none_of_idChars (a : Char) (hbad : idChar a = false) :
    ∀ s : List Char, s.all idChar = true → s.findIdx? (fun c => c == a) = none := by
  intro s hall
  rw [List.findIdx?_eq_none_iff]
  intro x hx
  have hxc := List.all_eq_true.mp hall x hx
  rw [beq_eq_false_iff_ne]
  intro he
  rw [he, hbad] at hxc
  cases hxc

theorem cutAtAmp_of_idChars (s : List Char) (hall : s.all idChar = true) :
    cutAtAmp s = s := by
  unfold cutAtAmp
  rw [findIdx?_eq_none_of_idChars '&' (by decide) s hall]

theorem extract_error_iff (url : List Char) :
    extract_video_id url = .error (.valueError "Invalid YouTube URL or video ID format") ↔
      validate_youtube_url url = false := by
  constructor
  · intro h
    cases hv : validate_youtube_url url
    · rfl
    · exfalso
      obtain ⟨v, hv2⟩ := extract_ok_of_validate url hv
      rw [hv2] at h
      cases h
  · intro h
    unfold extract_video_id
    rw [h]
    rfl

/-- The single regex of `validate_youtube_url` accepts exactly the spec's
full-watch-URL-or-short-URL patterns: the proof walks the six optional
scheme/`www.` combinations. -/
theorem regex_spec_eq (url : List Char) :
    youtubeRegexMatch url = (specFullWatch url || specShortUrl url) := by
  cases h8 : pfx lHTTPS url
  · cases h7 : pfx lHTTP url
    · cases hw : pfx lWWW url
      · -- no scheme, no www.
        have e1 : afterScheme url = url := by
          unfold afterScheme
          rw [h8, h7]
          rfl
        have e2 : afterWww url = url := by
          unfold afterWww
          rw [hw]
          rfl
        unfold youtubeRegexMatch specFullWatch specShortUrl
        rw [e1, e2,
          pfxOf_append_split lWWW lWATCH url,
          pfxOf_append_split lHTTP lWATCH url,
          pfxOf_append_split lHTTP (lWWW ++ lWATCH) url,
          pfxOf_append_split lHTTPS lWATCH url,
          pfxOf_append_split lHTTPS (lWWW ++ lWATCH) url,
          pfxOf_append_split lWWW lYTBES url,
          pfxOf_append_split lHTTP lYTBES url,
          pfxOf_append_split lHTTP (lWWW ++ lYTBES) url,
          pfxOf_append_split lHTTPS lYTBES url,
          pfxOf_append_split lHTTPS (lWWW ++ lYTBES) url,
          h8, h7, hw]
        cases hA : pfx lWATCH url <;> cases hB : pfx lYTBES url <;>
          cases hC : idChunk (url.drop 20) <;> cases hD : idChunk (url.drop 9) <;> rfl
      · -- no scheme, www.
        obtain ⟨R, hR⟩ : ∃ R, url = lWWW ++ R :=
          ⟨url.drop lWWW.length, pfxOf_eq_append lWWW url hw⟩
        subst hR
        rw [show youtubeRegexMatch (lWWW ++ R) =
            ((pfx lWATCH R && idChunk (R.drop 20)) ||
              (pfx lYTBES R && idChunk (R.drop 9))) from rfl]
        unfold specFullWatch specShortUrl
        rw [show pfx (lWWW ++ lWATCH) (lWWW ++ R) = pfx lWATCH R from rfl,
          show (lWWW ++ R).drop 24 = R.drop 20 from rfl,
          show pfx (lWWW ++ lYTBES) (lWWW ++ R) = pfx lYTBES R from rfl,
          show (lWWW ++ R).drop 13 = R.drop 9 from rfl]
        cases hA : pfx lWATCH R <;> cases hB : pfx lYTBES R <;>
          cases hC : idChunk (R.drop 20) <;> cases hD : idChunk (R.drop 9) <;> rfl
    · -- http scheme
      obtain ⟨R1, hR⟩ : ∃ R, url = lHTTP ++ R :=
        ⟨url.drop lHTTP.length, pfxOf_eq_append lHTTP url h7⟩
      subst hR
      cases hw : pfx lWWW R1
      · -- http, no www.
        rw [show youtubeRegexMatch (lHTTP ++ R1) =
            ((pfx lWATCH (afterWww R1) && idChunk ((afterWww R1).drop 20)) ||
              (pfx lYTBES (afterWww R1) && idChunk ((afterWww R1).drop 9))) from rfl]
        have e2 : afterWww R1 = R1 := by
          unfold afterWww
          rw [hw]
          rfl
        rw [e2]
        unfold specFullWatch specShortUrl
        rw [show pfx (lHTTP ++ lWATCH) (lHTTP ++ R1) = pfx lWATCH R1 from rfl,
          show (lHTTP ++ R1).drop 27 = R1.drop 20 from rfl,
          show pfx (lHTTP ++ (lWWW ++ lWATCH)) (lHTTP ++ R1) = pfx (lWWW ++ lWATCH) R1 from rfl,
          pfxOf_append_split lWWW lWATCH R1,
          show pfx (lHTTP ++ lYTBES) (lHTTP ++ R1) = pfx lYTBES R1 from rfl,
          show (lHTTP ++ R1).drop 16 = R1.drop 9 from rfl,
          show pfx (lHTTP ++ (lWWW ++ lYTBES)) (lHTTP ++ R1) = pfx (lWWW ++ lYTBES) R1 from rfl,
          pfxOf_append_split lWWW lYTBES R1,
          hw]
        cases hA : pfx lWATCH R1 <;> cases hB : pfx lYTBES R1 <;>
          cases hC : idChunk (R1.drop 20) <;> cases hD : idChunk (R1.drop 9) <;> rfl
      · -- http, www.
        obtain ⟨R, hR⟩ : ∃ R, R1 = lWWW ++ R :=
          ⟨R1.drop lWWW.length, pfxOf_eq_append lWWW R1 hw⟩
        subst hR
        rw [show youtubeRegexMatch (lHTTP ++ (lWWW ++ R)) =
            ((pfx lWATCH R && idChunk (R.drop 20)) ||
              (pfx lYTBES R && idChunk (R.drop 9))) from rfl]
        unfold specFullWatch specShortUrl
        rw [show pfx (lHTTP ++ (lWWW ++ lWATCH)) (lHTTP ++ (lWWW ++ R)) = pfx lWATCH R from rfl,
          show (lHTTP ++ (lWWW ++ R)).drop 31 = R.drop 20 from rfl,
          show pfx (lHTTP ++ (lWWW ++ lYTBES)) (lHTTP ++ (lWWW ++ R)) = pfx lYTBES R from rfl,
          show (lHTTP ++ (lWWW ++ R)).drop 20 = R.drop 9 from rfl]
        cases hA : pfx lWATCH R <;> cases hB : pfx lYTBES R <;>
          cases hC : idChunk (R.drop 20) <;> cases hD : idChunk (R.drop 9) <;> rfl
  · -- https scheme
    obtain ⟨R1, hR⟩ : ∃ R, url = lHTTPS ++ R :=
      ⟨url.drop lHTTPS.length, pfxOf_eq_append lHTTPS url h8⟩
    subst hR
    cases hw : pfx lWWW R1
    · -- https, no www.
      rw [show youtubeRegexMatch (lHTTPS ++ R1) =
          ((pfx lWATCH (afterWww R1) && idChunk ((afterWww R1).drop 20)) ||
            (pfx lYTBES (afterWww R1) && idChunk ((afterWww R1).drop 9))) from rfl]
      have e2 : afterWww R1 = R1 := by
        unfold afterWww
        rw [hw]
        rfl
      rw [e2]
      unfold specFullWatch specShortUrl
      rw [show pfx (lHTTPS ++ lWATCH) (lHTTPS ++ R1) = pfx lWATCH R1 from rfl,
        show (lHTTPS ++ R1).drop 28 = R1.drop 20 from rfl,
        show pfx (lHTTPS ++ (lWWW ++ lWATCH)) (lHTTPS ++ R1) = pfx (lWWW ++ lWATCH) R1 from rfl,
        pfxOf_append_split lWWW lWATCH R1,
        show pfx (lHTTPS ++ lYTBES) (lHTTPS ++ R1) = pfx lYTBES R1 from rfl,
        show (lHTTPS ++ R1).drop 17 = R1.drop 9 from rfl,
        show pfx (lHTTPS ++ (lWWW ++ lYTBES)) (lHTTPS ++ R1) = pfx (lWWW ++ lYTBES) R1 from rfl,
        pfxOf_append_split lWWW lYTBES R1,
        hw]
      cases hA : pfx lWATCH R1 <;> cases hB : pfx lYTBES R1 <;>
        cases hC : idChunk (R1.drop 20) <;> cases hD : idChunk (R1.drop 9) <;> rfl
    · -- https, www.
      obtain ⟨R, hR⟩ : ∃ R, R1 = lWWW ++ R :=
        ⟨R1.drop lWWW.length, pfxOf_eq_append lWWW R1 hw⟩
      subst hR
      rw [show youtubeRegexMatch (lHTTPS ++ (lWWW ++ R)) =
          ((pfx lWATCH R && idChunk (R.drop 20)) ||
            (pfx lYTBES R && idChunk (R.drop 9))) from rfl]
      unfold specFullWatch specShortUrl
      rw [show pfx (lHTTPS ++ (lWWW ++ lWATCH)) (lHTTPS ++ (lWWW ++ R)) = pfx lWATCH R from rfl,
        show (lHTTPS ++ (lWWW ++ R)).drop 32 = R.drop 20 from rfl,
        show pfx (lHTTPS ++ (lWWW ++ lYTBES)) (lHTTPS ++ (lWWW ++ R)) = pfx lYTBES R from rfl,
        show (lHTTPS ++ (lWWW ++ R)).drop 21 = R.drop 9 from rfl]
      cases hA : pfx lWATCH R <;> cases hB : pfx lYTBES R <;>
        cases hC : idChunk (R.drop 20) <;> cases hD : idChunk (R.drop 9) <;> rfl

theorem splitTextGo_head (cs step : Nat) :
    ∀ (fuel : Nat) (t : List Char), t.length ≤ fuel →
      (splitTextGo cs step t fuel).head? = some (t.take cs)
  | 0, t, h => by
    have ht : t = [] := List.eq_nil_of_length_eq_zero (Nat.le_zero.mp h)
    subst ht
    rw [List.take_nil]
    rfl
  | Nat.succ fuel, t, h => by
    unfold splitTextGo
    split_ifs with h1
    · rw [List.take_of_length_le h1]
      rfl
    · rfl

theorem splitTextGo_length_le (cs step : Nat) (hstep : 1 ≤ step) :
    ∀ (fuel : Nat) (t : List Char), t.length ≤ fuel →
      ∀ ch ∈ splitTextGo cs step t fuel, ch.length ≤ cs
  | 0, t, h, ch, hch => by
    have ht : t = [] := List.eq_nil_of_length_eq_zero (Nat.le_zero.mp h)
    subst ht
    simp only [splitTextGo, List.mem_singleton] at hch
    subst hch
    simp
  | Nat.succ fuel, t, h, ch, hch => by
    unfold splitTextGo at hch
    split_ifs at hch with h1
    · rw [List.mem_singleton] at hch
      subst hch
      exact h1
    · rcases List.mem_cons.mp hch with hc | hc
      · subst hc
        simp [List.length_take]
      · have hd : (t.drop step).length ≤ fuel := by
          rw [List.length_drop]
          omega
        exact splitTextGo_length_le cs step hstep fuel (t.drop step) hd ch hc

theorem splitTextGo_chain (cs co : Nat) (hco : co < cs) :
    ∀ (fuel : Nat) (t : List Char), t.length ≤ fuel →
      List.Chain' (overlapRel cs co) (splitTextGo cs (cs - co) t fuel)
  | 0, t, h => by
    have ht : t = [] := List.eq_nil_of_length_eq_zero (Nat.le_zero.mp h)
    subst ht
    exact List.chain'_singleton []
  | Nat.succ fuel, t, h => by
    unfold splitTextGo
    split_ifs with h1
    · exact List.chain'_singleton t
    · push_neg at h1
      have hd : (t.drop (cs - co)).length ≤ fuel := by
        rw [List.length_drop]
        omega
      rw [List.chain'_cons']
      refine ⟨?_, splitTextGo_chain cs co hco fuel (t.drop (cs - co)) hd⟩
      intro y hy
      rw [splitTextGo_head cs (cs - co) fuel (t.drop (cs - co)) hd] at hy
      rw [Option.mem_some_iff] at hy
      subst hy
      constructor
      · rw [List.length_drop, List.length_take]
        omega
      · refine ⟨((t.drop (cs - co)).drop co).take (cs - co), ?_⟩
        rw [List.drop_take cs (cs - co) t]
        have hcs : cs - (cs - co) = co := by omega
        rw [hcs]
        have hta := List.take_add (t.drop (cs - co)) co (cs - co)
        rw [show co + (cs - co) = cs by omega] at hta
        exact hta

/-! ## Claim theorems -/

/-- C1: if `process_video` fails at any step (invalid reference, transcript
fetch error, chunking failure, embedding error), the session's held state
(vector index, retriever, chain) is exactly what it was before the call —
no field is partially replaced. -/
theorem c1_failed_process_video_preserves_state (env : Env) (s : Session)
    (url : List Char) (e : PyErr) (h : (process_video env s url).1 = .error e) :
    (process_video env s url).2.1 = s := by
  rcases pv_cases env s url with hok | ⟨_, hs⟩
  · rw [hok] at h
    cases h
  · exact hs

/-- Witness for C1 at a concrete failing call: the transcript service
reports captions disabled and the initial session is left unchanged. -/
theorem c1_witness : (process_video envCap initSession url0).2.1 = initSession :=
  c1_failed_process_video_preserves_state envCap initSession url0
    (.valueError "Error processing video: No captions available for video ID: abc12345678")
    rfl

/-- C2 counterexample: a Ready session holding the processed video
`abc12345678` is reprocessed with the very same reference, yet
`process_video` fetches the transcript and re-embeds the chunks again —
its external-call log is not empty, contradicting the claimed no-op. -/
theorem c2_counterexample :
    (process_video envOK sReady url0).1 = .ok true ∧
      (process_video envOK sReady url0).2.2 =
        [ExtCall.fetch url0, ExtCall.embed ["hello world"]] :=
  ⟨rfl, rfl⟩

/-- C2 amended: `process_video` performs no same-video check — on every call
whose reference validates, whatever state the session holds, it fetches the
transcript of the resolved ID again (and, when the pipeline reaches the
index build, re-embeds); the same-ID skip exists only in the UI caller
outside the session facade. -/
theorem c2_amended_always_refetches (env : Env) (s : Session) (url : List Char)
    (h : validate_youtube_url url = true) :
    ∃ v rest, (process_video env s url).2.2 = ExtCall.fetch v :: rest :=
  pv_always_fetches env s url h

/-- Witness for the amended C2 at a concrete Ready session and reference. -/
theorem c2_witness :
    ∃ v rest, (process_video envOK sReady url0).2.2 = ExtCall.fetch v :: rest :=
  c2_amended_always_refetches envOK sReady url0 rfl

/-- C3 counterexample: the transcript service fails with the specific
captions-disabled kind, but the error `process_video` surfaces to its caller
is a generic `ValueError` — the specific kind is downgraded, so the
app-level `except TranscriptsDisabled` handler around `process_video` can
never fire. -/
theorem c3_counterexample :
    envCap.transcript_api url0 ["en"] = .error (.transcriptsDisabled "disabled") ∧
      (process_video envCap initSession url0).1 =
        .error (.valueError
          "Error processing video: No captions available for video ID: abc12345678") :=
  ⟨rfl, rfl⟩

/-- C3 amended: `process_video` re-raises only `ValueError`,
`AuthenticationError` and `RateLimitError` with their kind intact and wraps
every other failure (including `TranscriptsDisabled` and
`NoTranscriptFound`) into a generic `ValueError`; `ask` converts every
failure into a generic `ValueError`, keeping a message prefix as the only
distinction. -/
theorem c3_amended_error_kinds (env : Env) (s : Session) (url : List Char)
    (q : String) (e₁ e₂ : PyErr) :
    ((process_video env s url).1 = .error e₁ → surfacedByPV e₁ = true) ∧
      (ask env s q = .error e₂ → e₂.isValueError = true) := by
  constructor
  · intro h
    rcases pv_cases env s url with hok | ⟨⟨e0, he⟩, _⟩
    · rw [hok] at h
      cases h
    · rw [he] at h
      injection h with h'
      rw [← h']
      exact pvHandler_kinds e0
  · exact ask_error_shape env s q e₂

/-- Witness for the amended C3 at concrete failing calls of both
`process_video` (captions disabled, surfaced as `ValueError`) and `ask`
(no chain yet, surfaced as `ValueError`). -/
theorem c3_witness :
    surfacedByPV (.valueError
        "Error processing video: No captions available for video ID: abc12345678") = true ∧
      PyErr.isValueError
        (.valueError "Please process a video first using process_video()") = true :=
  ⟨(c3_amended_error_kinds envCap initSession url0 "q"
      (.valueError "Error processing video: No captions available for video ID: abc12345678")
      (.valueError "Please process a video first using process_video()")).1 rfl,
    (c3_amended_error_kinds envCap initSession url0 "q"
      (.valueError "Error processing video: No captions available for video ID: abc12345678")
      (.valueError "Please process a video first using process_video()")).2 rfl⟩

/-- C4: for every 11-character ID over the `[a-zA-Z0-9_-]` class, the full
watch URL, the short `youtu.be` URL and the bare ID all resolve through
`extract_video_id` to that same canonical ID; the concrete witness covers
the spec's `https://www.youtube.com/watch?v=abc12345678` scenario. -/
theorem c4_extract_canonical (id : List Char) (h11 : id.length = 11)
    (hall : id.all idChar = true) :
    extract_video_id ("https://www.youtube.com/watch?v=".toList ++ id) = .ok id ∧
      extract_video_id ("https://youtu.be/".toList ++ id) = .ok id ∧
      extract_video_id id = .ok id := by
  have htake : id.take 11 = id := List.take_of_length_le (le_of_eq h11)
  have hidc : idChunk id = true := by
    unfold idChunk
    rw [htake, hall, h11]
    rfl
  refine ⟨?_, ?_, ?_⟩
  · -- full watch URL
    have hvalF : validate_youtube_url ("https://www.youtube.com/watch?v=".toList ++ id) = true := by
      rw [show validate_youtube_url ("https://www.youtube.com/watch?v=".toList ++ id) =
          ((idChunk id || false) || false) from rfl, hidc]
      rfl
    have hyb : containsSub lYTBE ("https://www.youtube.com/watch?v=".toList ++ id) = false := by
      rw [show containsSub lYTBE ("https://www.youtube.com/watch?v=".toList ++ id) =
          containsSub lYTBE id from rfl]
      exact containsSub_eq_false_of_badChar lYTBE id '.' (by decide) (by decide) hall
    have hveq : containsSub lVEQ ("https://www.youtube.com/watch?v=".toList ++ id) = true := by
      rw [show ("https://www.youtube.com/watch?v=".toList ++ id) =
          "https://www.youtube.com/watch?".toList ++ (lVEQ ++ id) from rfl]
      exact containsSub_append_self "https://www.youtube.com/watch?".toList lVEQ id
    unfold extract_video_id
    rw [hvalF, hyb, hveq]
    rw [show splitOnList lVEQ ("https://www.youtube.com/watch?v=".toList ++ id) =
        "https://www.youtube.com/watch?".toList :: splitGo ['v', '='] id 0 from rfl]
    rw [splitGo_sndBad 'v' '=' [] (by decide) id hall]
    show Except.ok (cutAtAmp id) = Except.ok id
    rw [cutAtAmp_of_idChars id hall]
  · -- short youtu.be URL
    have hvalS : validate_youtube_url ("https://youtu.be/".toList ++ id) = true := by
      rw [show validate_youtube_url ("https://youtu.be/".toList ++ id) =
          (idChunk id || false) from rfl, hidc]
      rfl
    have hybS : containsSub lYTBE ("https://youtu.be/".toList ++ id) = true := by
      rw [show ("https://youtu.be/".toList ++ id) =
          "https://".toList ++ (lYTBE ++ ('/' :: id)) from rfl]
      exact containsSub_append_self "https://".toList lYTBE ('/' :: id)
    unfold extract_video_id
    rw [hvalS, hybS]
    rw [show splitOnList ['/'] ("https://youtu.be/".toList ++ id) =
        "https:".toList :: [] :: "youtu.be".toList :: splitGo ['/'] id 0 from rfl]
    rw [splitGo_headBad '/' [] (by decide) id hall]
    show Except.ok (headSegment ['?'] id) = Except.ok id
    unfold headSegment splitOnList
    rw [splitGo_headBad '?' [] (by decide) id hall]
    rfl
  · -- bare 11-character ID
    have hvid : videoIdRegexMatch id = true := by
      unfold videoIdRegexMatch bareIdNewlineQuirk
      rw [h11, hall]
      rfl
    have hvalB : validate_youtube_url id = true := by
      unfold validate_youtube_url
      rw [hvid, Bool.or_true]
    have hcsl : id.contains '/' = false :=
      contains_eq_false_of_badChar '/' id (by decide) hall
    have hycom : containsSub lYTCOM id = false :=
      containsSub_eq_false_of_badChar lYTCOM id '.' (by decide) (by decide) hall
    have hybe : containsSub lYTBE id = false :=
      containsSub_eq_false_of_badChar lYTBE id '.' (by decide) (by decide) hall
    unfold extract_video_id
    rw [hvalB, hcsl, hycom, hybe]
    rfl

/-- Witness for C4 at the spec's ID `abc12345678`, covering the end-to-end
example of the claim. -/
theorem c4_witness :
    extract_video_id "https://www.youtube.com/watch?v=abc12345678".toList =
        .ok "abc12345678".toList ∧
      extract_video_id "https://youtu.be/abc12345678".toList = .ok "abc12345678".toList ∧
      extract_video_id "abc12345678".toList = .ok "abc12345678".toList :=
  c4_extract_canonical ("abc12345678".toList) (by decide) (by decide)

/-- C5 counterexample: Python's `re.match(r'^[a-zA-Z0-9_-]{11}$', ...)` also
matches an 11-character ID followed by a single trailing newline (`$` matches
just before a final newline), so `validate_youtube_url` returns true on the
12-character string `"abcdefghijk\n"` even though it matches none of the
three claimed reference patterns — and `extract_video_id` then happily
returns that 12-character string as the "ID". -/
theorem c5_counterexample :
    validate_youtube_url "abcdefghijk\n".toList = true ∧
      specValidRef "abcdefghijk\n".toList = false ∧
      extract_video_id "abcdefghijk\n".toList = .ok "abcdefghijk\n".toList :=
  ⟨by decide, by decide, rfl⟩

/-- C5 amended: `validate_youtube_url` returns true iff the reference matches
a full watch URL, a short `youtu.be` URL, a bare 11-character ID, or an
11-character ID followed by one trailing newline (the `$`-before-final-
newline tolerance of Python's regex `re.match`); and `extract_video_id`
fails with the invalid-reference error exactly when validation fails. -/
theorem c5_amended_validate_pattern (url : List Char) :
    (validate_youtube_url url = true ↔
        (specValidRef url = true ∨ bareIdNewlineQuirk url = true)) ∧
      (extract_video_id url = .error (.valueError "Invalid YouTube URL or video ID format") ↔
        validate_youtube_url url = false) := by
  constructor
  · unfold validate_youtube_url videoIdRegexMatch specValidRef specBareId
    rw [regex_spec_eq url]
    simp only [Bool.or_eq_true]
    tauto
  · exact extract_error_iff url

/-- C6: when the fetched caption segments join to a whitespace-only string,
`get_transcript` raises `ValueError("Empty transcript retrieved")` inside
its own `try` block, so its `except Exception` clause re-wraps it into the
catch-all form `ValueError("Error retrieving transcript: ...")` — exactly
the shape any other transport failure gets, as the second conjunct shows. -/
theorem c6_empty_transcript_wrapped_into_catch_all :
    get_transcript envEmpty url0 =
        .error (.valueError "Error retrieving transcript: Empty transcript retrieved") ∧
      get_transcript envBoom url0 =
        .error (.valueError "Error retrieving transcript: boom") :=
  ⟨rfl, rfl⟩

/-- C7: on every session whose chain has not been built (no successful
`process_video` yet), `ask` fails with the not-ready error for every
question. -/
theorem c7_ask_before_process_fails (env : Env) (s : Session) (q : String)
    (h : s.chain = none) :
    ask env s q = .error (.valueError "Please process a video first using process_video()") := by
  unfold ask
  rw [h]

/-- Witness for C7 on the freshly initialized session. -/
theorem c7_witness :
    ask envOK initSession "What is this video about?" =
      .error (.valueError "Please process a video first using process_video()") :=
  c7_ask_before_process_fails envOK initSession "What is this video about?" rfl

/-- C8: with any configured chunk size and overlap (overlap smaller than the
chunk size, as in the 1000/200 defaults), every chunk produced by the
splitter has length at most the chunk size, and each pair of consecutive
chunks shares a block of at most `chunk_overlap` characters of context (the
end of one chunk is literally how the next chunk begins). -/
theorem c8_chunk_size_and_overlap (cs co : Nat) (t : List Char) (h : co < cs) :
    (∀ ch ∈ splitText cs co t, ch.length ≤ cs) ∧
      List.Chain' (overlapRel cs co) (splitText cs co t) := by
  have hstep : max 1 (cs - co) = cs - co := by omega
  unfold splitText
  rw [hstep]
  exact ⟨splitTextGo_length_le cs (cs - co) (by omega) t.length t le_rfl,
    splitTextGo_chain cs co h t.length t le_rfl⟩

/-- Witness for C8 on the spec's own chunking scenario: transcript
`"AAAA BBBB CCCC DDDD"` with chunk size 9 and overlap 3. -/
theorem c8_witness :
    3 < 9 ∧
      ((∀ ch ∈ splitText 9 3 ("AAAA BBBB CCCC DDDD".toList), ch.length ≤ 9) ∧
        List.Chain' (overlapRel 9 3) (splitText 9 3 ("AAAA BBBB CCCC DDDD".toList))) :=
  ⟨by decide, c8_chunk_size_and_overlap 9 3 ("AAAA BBBB CCCC DDDD".toList) (by decide)⟩

/-- C9: whenever retrieval returns a list of chunk texts, the chain invokes
the model on the prompt whose context slot is those texts joined with a
blank-line separator and whose question slot is the question unchanged. -/
theorem c9_chain_builds_context_and_passes_question (env : Env) (ch : Chain)
    (q : String) (docs : List String)
    (h : env.retrieve ch.retriever q = .ok docs) :
    chain_invoke env ch q =
      env.llm (render_prompt
        { context := String.intercalate "\n\n" docs, question := q }) := by
  unfold chain_invoke format_docs
  rw [h]

/-- Witness for C9 at a concrete retriever result. -/
theorem c9_witness :
    chain_invoke envOK ch0 "q0" =
      envOK.llm (render_prompt
        { context := String.intercalate "\n\n" ["doc1", "doc2"], question := "q0" }) :=
  c9_chain_builds_context_and_passes_question envOK ch0 "q0" ["doc1", "doc2"] rfl

/-- C10: `process_video` never returns `False` — every execution either
raises an error or returns `True`, so a caller's check for a `False` return
value is an unreachable branch. -/
theorem c10_process_video_never_false (env : Env) (s : Session) (url : List Char) :
    (∃ e, (process_video env s url).1 = .error e) ∨
      (process_video env s url).1 = .ok true := by
  rcases pv_cases env s url with hok | ⟨⟨e0, he⟩, _⟩
  · exact Or.inr hok
  · exact Or.inl ⟨pvHandler e0, he⟩

end YTC
